import Mathlib

/-!
Verification development for the niu-cloud-api repository.

The repository has two source files:
  * `index.js` — the NIU cloud connector client (`niuCloudConnector.Client`):
    session management (`createSessionToken`, `setSessionToken`), the request
    executor (`_makeRequest`), the error normalizer (`_error`) and the
    endpoint accessors (`getVehicles`, `getBatteryInfo`, `getBatteryHealth`,
    `getMotorInfo`, `getOverallTally`, `getTracks`, `getTrackDetail`).
  * an unnamed main file — the aggregation pipeline: a promise chain that
    authenticates, lists vehicles, fetches position / battery / motor /
    tally / firmware / track data, folds each response into a module-level
    `data` object, and an express route `app.get("/api")` serving `data`
    when the request body carries the SHA-256 digest of the configured key.

The embedding models JavaScript values shallowly (`JSVal`), including
`typeof`, property access (with `none` marking a thrown `TypeError` on
`undefined`/`null` receivers), strict equality on the shapes the code
compares, and the numeric coercions (`Number(x)`, `/`) the pipeline uses.
Network I/O is modelled by a `Transport` triple `(error, response, body)` —
the three arguments the `request` library passes to its callback — so that
every function of the connector becomes a pure function of its inputs and
the transport outcome.
-/

/-- Helper for decimal digit extraction: structural recursion on fuel so
that the kernel can evaluate it (the fuel is always at least the number
of digits). -/
def natDigitsAux : Nat → Nat → List Char → List Char
  | 0, _, acc => acc
  | _ + 1, 0, acc => acc
  | fuel + 1, n, acc => natDigitsAux fuel (n / 10) (Char.ofNat (48 + n % 10) :: acc)

/-- Decimal rendering of a natural number. -/
def natToDecimalString (n : Nat) : String :=
  if n == 0 then "0" else String.mk (natDigitsAux (n + 1) n [])

/-- Decimal rendering of an integer. -/
def intToDecimalString : Int → String
  | .ofNat n => natToDecimalString n
  | .negSucc n => "-" ++ natToDecimalString (n + 1)

/-- An exact JavaScript number value: a rational as a numerator/denominator
pair. Every number the sources produce or receive is kept in lowest terms
with positive denominator (the constructions below normalize), so that
structural equality of `JNum` coincides with JavaScript numeric equality. -/
structure JNum where
  num : Int
  den : Nat
deriving DecidableEq, Repr

/-- An integer as a number value. -/
def jn (i : Int) : JNum := { num := i, den := 1 }

/-- Normalized construction of a number from a fraction. -/
def mkJNum (n : Int) (d : Nat) : JNum :=
  let g := Nat.gcd n.natAbs d
  if g == 0 then { num := 0, den := 0 }
  else { num := n / (g : Int), den := d / g }

/-- Exact division of number values (the divisor's zero case is handled by
the caller). -/
def JNum.div (a b : JNum) : JNum :=
  if b.num < 0 then mkJNum (-(a.num * (b.den : Int))) (a.den * b.num.natAbs)
  else mkJNum (a.num * (b.den : Int)) (a.den * b.num.natAbs)

/-- Decimal rendering of a number value. -/
def JNum.render (q : JNum) : String :=
  if q.den == 1 then intToDecimalString q.num
  else intToDecimalString q.num ++ "/" ++ natToDecimalString q.den

mutual

/-- A JavaScript value, as far as the code under verification observes it:
`undefined`, `null`, `NaN`, booleans, (non-NaN) numbers as exact rationals
in lowest terms (see `JNum`), strings, functions (the source uses the constructors `String` and `Number`
as placeholder values in its `data` object, so only a function's name is
kept), objects as ordered field lists, and arrays. -/
inductive JSVal where
  | undefined
  | null
  | nan
  | bool (b : Bool)
  | num (n : JNum)
  | str (s : String)
  | func (fname : String)
  | obj (fields : JFields)
  | arr (elems : JElems)
deriving DecidableEq, Repr

/-- Field list of a JavaScript object literal. -/
inductive JFields where
  | nil
  | cons (k : String) (v : JSVal) (rest : JFields)
deriving DecidableEq, Repr

/-- Element list of a JavaScript array literal. -/
inductive JElems where
  | nil
  | cons (v : JSVal) (rest : JElems)
deriving DecidableEq, Repr

end

/-- Build a `JFields` from a Lean list. -/
def JFields.ofList : List (String × JSVal) → JFields
  | [] => .nil
  | (k, v) :: t => .cons k v (ofList t)

/-- Build a `JElems` from a Lean list. -/
def JElems.ofList : List JSVal → JElems
  | [] => .nil
  | v :: t => .cons v (ofList t)

/-- Object literal helper. -/
def jobj (l : List (String × JSVal)) : JSVal := JSVal.obj (JFields.ofList l)

/-- Array literal helper. -/
def jarr (l : List JSVal) : JSVal := JSVal.arr (JElems.ofList l)

/-- First-match field lookup (the mocks used below have no duplicate keys). -/
def JFields.lookup : JFields → String → Option JSVal
  | .nil, _ => none
  | .cons k v rest, key => if k == key then some v else rest.lookup key

/-- Number of elements of an array. -/
def JElems.length : JElems → Nat
  | .nil => 0
  | .cons _ rest => 1 + rest.length

/-- Element at an index. -/
def JElems.get : JElems → Nat → Option JSVal
  | .nil, _ => none
  | .cons v _, 0 => some v
  | .cons _ rest, n + 1 => rest.get n

/-- JavaScript `typeof` (note `typeof null === "object"` and
`typeof NaN === "number"`). -/
def jsTypeof : JSVal → String
  | .undefined => "undefined"
  | .null => "object"
  | .nan => "number"
  | .bool _ => "boolean"
  | .num _ => "number"
  | .str _ => "string"
  | .func _ => "function"
  | .obj _ => "object"
  | .arr _ => "object"

/-- JavaScript property access `v.k`. `none` models a thrown `TypeError`
(receiver `undefined` or `null`); otherwise the property value, or
`undefined` when absent. On arrays only `length` is populated, and on
primitives the properties the sources read are all absent — the sources
never read `.length` of a string. -/
def jget : JSVal → String → Option JSVal
  | .undefined, _ => none
  | .null, _ => none
  | .obj fs, k => some ((fs.lookup k).getD .undefined)
  | .arr es, k => if k == "length" then some (.num (jn es.length)) else some .undefined
  | _, _ => some .undefined

/-- Total property access, mapping the thrown case to `undefined`. Used
only where the sources have already guarded the receiver with
`"object" === typeof v`: there the sole receiver this deviates on is
`null` (whose member access would throw inside the asynchronous `request`
callback — an uncaught exception, not a rejection). -/
def jgetTotal (v : JSVal) (k : String) : JSVal := (jget v k).getD .undefined

/-- JavaScript index access `v[i]` for a numeric literal index. `none`
models a thrown `TypeError`; an out-of-range array index yields
`undefined`, and a numeric index on the plain objects the sources build
is an absent property. -/
def jindex : JSVal → Nat → Option JSVal
  | .undefined, _ => none
  | .null, _ => none
  | .arr es, i => some ((es.get i).getD .undefined)
  | _, _ => some .undefined

/-- Digit-run parsing helper. -/
def parseDigitsAux : List Char → Nat → Option Nat
  | [], acc => some acc
  | c :: t, acc => if c.isDigit then parseDigitsAux t (acc * 10 + (c.toNat - 48)) else none

/-- A non-empty all-digit run as a natural number. -/
def parseDigits : List Char → Option Nat
  | [] => none
  | c :: t => parseDigitsAux (c :: t) 0

/-- Split a character list at the first dot. -/
def splitDot : List Char → List Char × Option (List Char)
  | [] => ([], none)
  | c :: t =>
    if c == '.' then ([], some t)
    else
      let p := splitDot t
      (c :: p.1, p.2)

/-- Decimal string parsing for `Number(string)`: optional sign, digits,
optional fractional part — the shape of every numeric string the vendor
API sends (battery grade points such as "92" or "93.9"). Other strings
map to `NaN` below. -/
def parseDecimal (s : String) : Option JNum :=
  let core : List Char → Option JNum := fun cs =>
    match splitDot cs with
    | (intPart, none) => (parseDigits intPart).map (fun n => jn n)
    | (intPart, some frac) =>
      match parseDigits intPart, parseDigits frac with
      | some x, some y => some (mkJNum (x * 10 ^ frac.length + y) (10 ^ frac.length))
      | _, _ => none
  match s.toList with
  | '-' :: t => (core t).map (fun q => { q with num := -q.num })
  | cs => core cs

/-- JavaScript `Number(v)` coercion on the values the sources feed it:
numbers stay, numeric strings parse, booleans and `null` have their usual
coercions, everything else (including objects, whose `ToPrimitive` round
the sources never rely on) is `NaN`. -/
def jsNumber : JSVal → JSVal
  | .num n => .num n
  | .nan => .nan
  | .bool b => .num (jn (if b then 1 else 0))
  | .null => .num (jn 0)
  | .str s =>
    match parseDecimal s with
    | some r => .num r
    | none => .nan
  | _ => .nan

/-- JavaScript division `a / b` as used by the pipeline (`distance / 1000`,
`ridingtime / 60`): both sides coerced to number; any `NaN` propagates.
The divisors in the source are the nonzero literals 1000 and 60, so the
division-by-zero (Infinity) case is collapsed into `nan`. -/
def jsDiv (a b : JSVal) : JSVal :=
  match jsNumber a, jsNumber b with
  | .num x, .num y => if y.num == 0 then .nan else .num (x.div y)
  | _, _ => .nan

/-- Modelled from the spec: the pipeline renders vendor epoch-millisecond
timestamps as human-readable date-time strings via the JavaScript builtin
`new Date(ms).toString()` (a locale/timezone-dependent builtin outside the
repository). Modelled as an injective rendering of the epoch value; a
non-numeric argument yields the JavaScript "Invalid Date" rendering. -/
def dateToString (v : JSVal) : String :=
  match v with
  | .num n => "Date(" ++ JNum.render n ++ ")"
  | _ => "Invalid Date"

/-- The error object built by `Client.prototype._error`: the stamped
time (`debug.date`), the originating function name (`debug.funcName`) and
the `error` field. The `client` backreference of the source object is the
connector instance itself and carries no data; it is not modelled. -/
structure ErrObj where
  date : String
  funcName : String
  error : JSVal
deriving DecidableEq, Repr

/-- `Client.prototype._error(errorInfo, funcName)`: a string cause is
wrapped as `message`, an object cause is passed through as-is, anything
else becomes the generic "Invalid error info." message. The current time
`_getTime()` is passed in as `date`. -/
def clientError (errorInfo : JSVal) (funcName : String) (date : String) : ErrObj :=
  { date := date
    funcName := funcName
    error :=
      if jsTypeof errorInfo == "string" then jobj [("message", errorInfo)]
      else if jsTypeof errorInfo == "object" then errorInfo
      else jobj [("message", .str "Invalid error info.")] }

/-- One network exchange: the three arguments `(error, response, body)` the
`request` library passes to its callback. `error = null` means the
transport succeeded. -/
structure Transport where
  error : JSVal
  response : JSVal
  body : JSVal
deriving DecidableEq, Repr

/-- The response-interpretation callback of `Client.prototype._makeRequest`:
transport error, then missing response object, then missing/non-numeric
status code, then status code different from 200, then missing body, then
vendor-embedded non-zero `body.status` (rejected with the body itself as
cause), and only past all of these a success wrapping the raw body. -/
def makeRequestCallback (t : Transport) (date : String) : Except ErrObj JSVal :=
  if t.error != JSVal.null then
    .error (clientError t.error "_makeRequest()" date)
  else if jsTypeof t.response != "object" then
    .error (clientError (.str "Unknown error.") "_makeRequest()" date)
  else if jsTypeof (jgetTotal t.response "statusCode") != "number" then
    .error (clientError (.str "Status code is missing.") "_makeRequest()" date)
  else if jgetTotal t.response "statusCode" != JSVal.num (jn 200) then
    .error (clientError (.str "Bad request.") "_makeRequest()" date)
  else if jsTypeof t.body != "object" then
    .error (clientError (.str "No body received.") "_makeRequest()" date)
  else if jsTypeof (jgetTotal t.body "status") == "number"
          && jgetTotal t.body "status" != JSVal.num (jn 0) then
    .error (clientError t.body "_makeRequest()" date)
  else
    .ok t.body

/-- The headers `_makeRequest` sends: the language header and the current
session token as bearer credential. -/
def reqHeaders (token : String) : JSVal :=
  jobj [("accept-language", .str "en-US"), ("token", .str token)]

/-- `Client.prototype._makeRequest(options)`: validates that `options` is
an object with a string `path`, then issues exactly one request and
interprets it with `makeRequestCallback`. The session token is only
embedded in the request headers (`"token": this._token`); `_makeRequest`
performs no check on it. -/
def makeRequest (token : String) (options : JSVal) (t : Transport) (date : String) :
    Except ErrObj JSVal :=
  if jsTypeof options != "object" then
    .error (clientError (.str "Options is missing.") "_makeRequest()" date)
  else if jsTypeof (jgetTotal options "path") != "string" then
    .error (clientError (.str "Path is missing.") "_makeRequest()" date)
  else
    let _hdrs := reqHeaders token
    makeRequestCallback t date

/-- `Client.prototype.createSessionToken(options)`: validates that
`options` is an object whose `account`, `password` and `countryCode` are
of string type (emptiness is not checked), then performs the login request
and interprets the response; on success the returned token becomes the
client's session token. -/
def createSessionToken (options : JSVal) (t : Transport) (date : String) :
    Except ErrObj String :=
  if jsTypeof options != "object" then
    .error (clientError (.str "Options is missing.") "createSessionToken()" date)
  else if jsTypeof (jgetTotal options "account") != "string" then
    .error (clientError (.str "Account is missing.") "createSessionToken()" date)
  else if jsTypeof (jgetTotal options "password") != "string" then
    .error (clientError (.str "Password is missing.") "createSessionToken()" date)
  else if jsTypeof (jgetTotal options "countryCode") != "string" then
    .error (clientError (.str "Country code is missing.") "createSessionToken()" date)
  else if t.error != JSVal.null then
    .error (clientError t.error "createSessionToken()" date)
  else if jsTypeof t.response != "object" then
    .error (clientError (.str "Invalid response.") "createSessionToken()" date)
  else if jsTypeof (jgetTotal t.response "statusCode") != "number" then
    .error (clientError (.str "Status code is missing.") "createSessionToken()" date)
  else if jgetTotal t.response "statusCode" != JSVal.num (jn 200) then
    .error (clientError (.str "Bad request.") "createSessionToken()" date)
  else if jsTypeof t.body != "object" then
    .error (clientError (.str "No body received.") "createSessionToken()" date)
  else if jsTypeof (jgetTotal t.body "status") == "number"
          && jgetTotal t.body "status" != JSVal.num (jn 0) then
    .error (clientError (.str "Invalid login data.") "createSessionToken()" date)
  else if jsTypeof (jgetTotal t.body "data") != "object" then
    .error (clientError (.str "Data is missing in response.") "createSessionToken()" date)
  else
    match jgetTotal (jgetTotal t.body "data") "token" with
    | JSVal.str tok =>
      if tok.length == 0 then
        .error (clientError (.str "Token is empty in response.") "createSessionToken()" date)
      else
        .ok tok
    | _ => .error (clientError (.str "Token is missing in response.") "createSessionToken()" date)

/-- `Client.prototype.getVehicles()`: fails fast with "No valid token
available." on an empty session token, otherwise posts to
`/motoinfo/list` through `_makeRequest` and resolves with the raw body. -/
def getVehicles (token : String) (t : Transport) (date : String) : Except ErrObj JSVal :=
  if token.length == 0 then
    .error (clientError (.str "No valid token available.") "getVehicles()" date)
  else
    makeRequest token (jobj [("path", .str "/motoinfo/list"), ("postData", jobj [])]) t date

/-- `Client.prototype.getBatteryInfo(options)`: token guard, then `options`
object guard, then string `sn` guard, then one GET through `_makeRequest`. -/
def getBatteryInfo (token : String) (options : JSVal) (t : Transport) (date : String) :
    Except ErrObj JSVal :=
  if token.length == 0 then
    .error (clientError (.str "No valid token available.") "getBatteryInfo()" date)
  else if jsTypeof options != "object" then
    .error (clientError (.str "Options is missing.") "getBatteryInfo()" date)
  else
    match jgetTotal options "sn" with
    | JSVal.str s =>
      makeRequest token (jobj [("path", .str ("/v3/motor_data/battery_info?sn=" ++ s))]) t date
    | _ => .error (clientError (.str "Vehicle serial number is missing.") "getBatteryInfo()" date)

/-- `Client.prototype.getBatteryHealth(options)`: same guards and request
shape as `getBatteryInfo` but against the battery-health path. Its local
`funcName` variable is assigned the string "getBatteryInfo()" in the
source (line 487), so every error it produces is stamped with that name. -/
def getBatteryHealth (token : String) (options : JSVal) (t : Transport) (date : String) :
    Except ErrObj JSVal :=
  if token.length == 0 then
    .error (clientError (.str "No valid token available.") "getBatteryInfo()" date)
  else if jsTypeof options != "object" then
    .error (clientError (.str "Options is missing.") "getBatteryInfo()" date)
  else
    match jgetTotal options "sn" with
    | JSVal.str s =>
      makeRequest token
        (jobj [("path", .str ("/v3/motor_data/battery_info/health?sn=" ++ s))]) t date
    | _ => .error (clientError (.str "Vehicle serial number is missing.") "getBatteryInfo()" date)

/-- `Client.prototype.getMotorInfo(options)`: token, options and `sn`
guards, then one GET against the motor-data path. -/
def getMotorInfo (token : String) (options : JSVal) (t : Transport) (date : String) :
    Except ErrObj JSVal :=
  if token.length == 0 then
    .error (clientError (.str "No valid token available.") "getMotorInfo()" date)
  else if jsTypeof options != "object" then
    .error (clientError (.str "Options is missing.") "getMotorInfo()" date)
  else
    match jgetTotal options "sn" with
    | JSVal.str s =>
      makeRequest token (jobj [("path", .str ("/v3/motor_data/index_info?sn=" ++ s))]) t date
    | _ => .error (clientError (.str "Vehicle serial number is missing.") "getMotorInfo()" date)

/-- `Client.prototype.getOverallTally(options)`: token, options and `sn`
guards, then one POST with the serial number as form data. -/
def getOverallTally (token : String) (options : JSVal) (t : Transport) (date : String) :
    Except ErrObj JSVal :=
  if token.length == 0 then
    .error (clientError (.str "No valid token available.") "getOverallTally()" date)
  else if jsTypeof options != "object" then
    .error (clientError (.str "Options is missing.") "getOverallTally()" date)
  else
    match jgetTotal options "sn" with
    | JSVal.str s =>
      makeRequest token
        (jobj [("path", .str "/motoinfo/overallTally"),
               ("postData", jobj [("sn", .str s)])]) t date
    | _ => .error (clientError (.str "Vehicle serial number is missing.") "getOverallTally()" date)

/-- `Client.prototype.getTracks(options)`: token guard, object guard,
string `sn` guard, numeric `index` guard, numeric `pageSize` guard, then
one POST with the pagination form data. -/
def getTracks (token : String) (options : JSVal) (t : Transport) (date : String) :
    Except ErrObj JSVal :=
  if token.length == 0 then
    .error (clientError (.str "No valid token available.") "getTracks()" date)
  else if jsTypeof options != "object" then
    .error (clientError (.str "Options is missing.") "getTracks()" date)
  else if jsTypeof (jgetTotal options "sn") != "string" then
    .error (clientError (.str "Vehicle serial number is missing.") "getTracks()" date)
  else if jsTypeof (jgetTotal options "index") != "number" then
    .error (clientError (.str "Index is missing.") "getTracks()" date)
  else if jsTypeof (jgetTotal options "pageSize") != "number" then
    .error (clientError (.str "Page size is missing.") "getTracks()" date)
  else
    makeRequest token
      (jobj [("path", .str "/v3/motor_data/track"),
             ("postData", jobj [("sn", jgetTotal options "sn"),
                                ("index", jgetTotal options "index"),
                                ("pagesize", jgetTotal options "pageSize")])]) t date

/-- `Client.prototype.getTrackDetail(options)`: token guard, object guard,
string guards for `sn`, `trackId` and `trackDate`, then one POST. -/
def getTrackDetail (token : String) (options : JSVal) (t : Transport) (date : String) :
    Except ErrObj JSVal :=
  if token.length == 0 then
    .error (clientError (.str "No valid token available.") "getTrackDetail()" date)
  else if jsTypeof options != "object" then
    .error (clientError (.str "Options is missing.") "getTrackDetail()" date)
  else if jsTypeof (jgetTotal options "sn") != "string" then
    .error (clientError (.str "Vehicle serial number is missing.") "getTrackDetail()" date)
  else if jsTypeof (jgetTotal options "trackId") != "string" then
    .error (clientError (.str "Track ID is missing.") "getTrackDetail()" date)
  else if jsTypeof (jgetTotal options "trackDate") != "string" then
    .error (clientError (.str "Track date is missing.") "getTrackDetail()" date)
  else
    makeRequest token
      (jobj [("path", .str "/motoinfo/track/detail"),
             ("postData", jobj [("sn", jgetTotal options "sn"),
                                ("trackId", jgetTotal options "trackId"),
                                ("date", jgetTotal options "trackDate")])]) t date

/-- Modelled from the spec: the `getVehiclePos` endpoint accessor is called
by the pipeline but is absent from the vendored connector source. Per the
spec each accessor "validates its own required parameters before delegating
to the Request Executor" and "all others require a serial number", so it is
modelled with the same guards as the present single-`sn` accessors. The
request path is a placeholder — the mocked transport carries the response. -/
def getVehiclePos (token : String) (options : JSVal) (t : Transport) (date : String) :
    Except ErrObj JSVal :=
  if token.length == 0 then
    .error (clientError (.str "No valid token available.") "getVehiclePos()" date)
  else if jsTypeof options != "object" then
    .error (clientError (.str "Options is missing.") "getVehiclePos()" date)
  else
    match jgetTotal options "sn" with
    | JSVal.str s =>
      makeRequest token (jobj [("path", .str ("/v3/motor_data/pos?sn=" ++ s))]) t date
    | _ => .error (clientError (.str "Vehicle serial number is missing.") "getVehiclePos()" date)

/-- Modelled from the spec: the `getFirmwareVersion` endpoint accessor is
called by the pipeline but is absent from the vendored connector source.
Modelled with the same guards as the present single-`sn` accessors; the
request path is a placeholder — the mocked transport carries the response. -/
def getFirmwareVersion (token : String) (options : JSVal) (t : Transport) (date : String) :
    Except ErrObj JSVal :=
  if token.length == 0 then
    .error (clientError (.str "No valid token available.") "getFirmwareVersion()" date)
  else if jsTypeof options != "object" then
    .error (clientError (.str "Options is missing.") "getFirmwareVersion()" date)
  else
    match jgetTotal options "sn" with
    | JSVal.str s =>
      makeRequest token (jobj [("path", .str ("/motorinfo/version?sn=" ++ s))]) t date
    | _ =>
      .error (clientError (.str "Vehicle serial number is missing.") "getFirmwareVersion()" date)

/-- A rejection travelling down the promise chain of the main file: an
error object produced by the connector (`reject(this._error(...))`), a
plain `new Error(msg)` rejection, or a `TypeError` thrown by a property
access on `undefined`/`null` (the accessed key is recorded). -/
inductive Rejection where
  | api (e : ErrObj)
  | jsError (msg : String)
  | typeError (key : String)
deriving DecidableEq, Repr

/-- Property access in the pipeline: a `TypeError` rejects the chain. -/
def jgetE (v : JSVal) (k : String) : Except Rejection JSVal :=
  match jget v k with
  | some x => .ok x
  | none => .error (.typeError k)

/-- Index access in the pipeline: a `TypeError` rejects the chain. -/
def jindexE (v : JSVal) (i : Nat) : Except Rejection JSVal :=
  match jindex v i with
  | some x => .ok x
  | none => .error (.typeError (toString i))

/-- The module-level `data` object of the main file, flattened: each field
is one leaf of the nested `data` literal, named after its path
(`battery0` / `battery1` are `data.battery.batteries[0]` / `[1]`). Every
leaf holds a `JSVal` because the pipeline assigns raw vendor values. -/
structure Snapshot where
  vehicle_sn : JSVal
  vehicle_type : JSVal
  vehicle_name : JSVal
  position_latitude : JSVal
  position_longitude : JSVal
  battery_estimated_milage : JSVal
  battery0_bms : JSVal
  battery0_capacity : JSVal
  battery0_grade : JSVal
  battery1_bms : JSVal
  battery1_capacity : JSVal
  battery1_grade : JSVal
  current_speed : JSVal
  total_mileage : JSVal
  firmware_version : JSVal
  track_id : JSVal
  track_start_time : JSVal
  track_end_time : JSVal
  track_distance : JSVal
  track_average_speed : JSVal
  track_riding_time : JSVal
deriving DecidableEq, Repr

/-- The initial `data` literal: its placeholder leaves are the JavaScript
constructor functions `String` and `Number` themselves. -/
def initialData : Snapshot :=
  { vehicle_sn := .func "String"
    vehicle_type := .func "String"
    vehicle_name := .func "String"
    position_latitude := .func "String"
    position_longitude := .func "String"
    battery_estimated_milage := .func "Number"
    battery0_bms := .func "String"
    battery0_capacity := .func "Number"
    battery0_grade := .func "Number"
    battery1_bms := .func "String"
    battery1_capacity := .func "Number"
    battery1_grade := .func "Number"
    current_speed := .func "Number"
    total_mileage := .func "Number"
    firmware_version := .func "String"
    track_id := .func "String"
    track_start_time := .func "String"
    track_end_time := .func "String"
    track_distance := .func "Number"
    track_average_speed := .func "Number"
    track_riding_time := .func "Number" }

/-- `vehicles.result[i]`: the module variable `vehicles` holds the whole
resolved value `getVehicles` produced. -/
def vehiclesElem (vehiclesVar : JSVal) (i : Nat) : Except Rejection JSVal := do
  let r ← jgetE vehiclesVar "result"
  jindexE r i

/-- The vehicle-identity writes of the loop body (`vehicleIndex = 0`):
`data.vehicle.sn/type/name = vehicles.result[vehicleIndex].sn/type/name`,
each statement re-reading `vehicles.result[vehicleIndex]`. -/
def foldVehicleFields (d : Snapshot) (vehiclesVar : JSVal) (i : Nat) :
    Except Rejection Snapshot := do
  let e0 ← vehiclesElem vehiclesVar i
  let sn ← jgetE e0 "sn"
  let d := { d with vehicle_sn := sn }
  let e1 ← vehiclesElem vehiclesVar i
  let ty ← jgetE e1 "type"
  let d := { d with vehicle_type := ty }
  let e2 ← vehiclesElem vehiclesVar i
  let nm ← jgetE e2 "name"
  pure { d with vehicle_name := nm }

/-- The position fold: `data.position.latitude/longitude =
vehiclePosResult.result.lat/lng`. -/
def foldPosition (d : Snapshot) (posBody : JSVal) : Except Rejection Snapshot := do
  let la ← jgetE posBody "lat"
  let d := { d with position_latitude := la }
  let ln ← jgetE posBody "lng"
  pure { d with position_longitude := ln }

/-- The battery-info fold. Note the source's compartment-B branch reads
`batteries.compartmentA.bmsId` and `batteries.compartmentA.batteryCharging`
— compartment A's fields — into slot 1 (main file lines 130–134). -/
def foldBatteryInfo (d : Snapshot) (body : JSVal) : Except Rejection Snapshot := do
  let batteries ← jgetE body "batteries"
  let compA ← jgetE batteries "compartmentA"
  let d ←
    if jsTypeof compA == "object" then do
      let bms ← jgetE compA "bmsId"
      let d := { d with battery0_bms := bms }
      let cap ← jgetE compA "batteryCharging"
      pure { d with battery0_capacity := cap }
    else pure d
  let compB ← jgetE batteries "compartmentB"
  let d ←
    if jsTypeof compB == "object" then do
      let bms ← jgetE compA "bmsId"
      let d := { d with battery1_bms := bms }
      let cap ← jgetE compA "batteryCharging"
      pure { d with battery1_capacity := cap }
    else pure d
  let em ← jgetE body "estimatedMileage"
  pure { d with battery_estimated_milage := em }

/-- The battery-health fold. Note the source's compartment-B branch reads
`Number(batteries.compartmentA.gradeBattery)` — compartment A's grade —
into slot 1 (main file lines 151–155). -/
def foldBatteryHealth (d : Snapshot) (body : JSVal) : Except Rejection Snapshot := do
  let batteries ← jgetE body "batteries"
  let compA ← jgetE batteries "compartmentA"
  let d ←
    if jsTypeof compA == "object" then do
      let g ← jgetE compA "gradeBattery"
      pure { d with battery0_grade := jsNumber g }
    else pure d
  let compB ← jgetE batteries "compartmentB"
  if jsTypeof compB == "object" then do
    let g ← jgetE compA "gradeBattery"
    pure { d with battery1_grade := jsNumber g }
  else pure d

/-- The overall-tally fold: `data.total_mileage = result.result.totalMileage`. -/
def foldTally (d : Snapshot) (body : JSVal) : Except Rejection Snapshot := do
  let tm ← jgetE body "totalMileage"
  pure { d with total_mileage := tm }

/-- The firmware fold: `data.firmware_version = result.result.version`. -/
def foldFirmware (d : Snapshot) (body : JSVal) : Except Rejection Snapshot := do
  let v ← jgetE body "version"
  pure { d with firmware_version := v }

/-- The tracks fold: when `0 === result.result.length` the snapshot's track
fields are left as they are (only a console message is printed); otherwise
`result.result.items[0]` is taken and its fields folded with the meters →
kilometers and seconds → minutes divisions and the `Date` renderings. -/
def foldTracks (d : Snapshot) (body : JSVal) : Except Rejection Snapshot := do
  let len ← jgetE body "length"
  if len == JSVal.num (jn 0) then
    pure d
  else do
    let items ← jgetE body "items"
    let track ← jindexE items 0
    let st ← jgetE track "startTime"
    let et ← jgetE track "endTime"
    let tid ← jgetE track "trackId"
    let d := { d with track_id := tid }
    let d := { d with track_start_time := .str (dateToString st) }
    let d := { d with track_end_time := .str (dateToString et) }
    let dist ← jgetE track "distance"
    let d := { d with track_distance := jsDiv dist (.num (jn 1000)) }
    let asp ← jgetE track "avespeed"
    let d := { d with track_average_speed := asp }
    let rt ← jgetE track "ridingtime"
    pure { d with track_riding_time := jsDiv rt (.num (jn 60)) }

/-- One transport outcome per vendor call the pipeline makes, in call
order. -/
structure MockApi where
  authT : Transport
  vehiclesT : Transport
  posT : Transport
  batteryInfoT : Transport
  batteryHealthT : Transport
  motorInfoT : Transport
  tallyT : Transport
  firmwareT : Transport
  tracksT : Transport
deriving DecidableEq, Repr

/-- Sequence an accessor call into the pipeline: a rejected accessor call
short-circuits the chain, leaving the `data` object as it currently is. -/
def bindApi (d : Snapshot) (r : Except ErrObj JSVal)
    (k : JSVal → Snapshot × Except Rejection Unit) : Snapshot × Except Rejection Unit :=
  match r with
  | .error e => (d, .error (.api e))
  | .ok b => k b

/-- Sequence a fold step into the pipeline. In the source every throw site
of every fold precedes that fold's first write, so a failed fold leaves
the `data` object exactly as it was before the fold. -/
def bindFold (d : Snapshot) (r : Except Rejection Snapshot)
    (k : Snapshot → Snapshot × Except Rejection Unit) : Snapshot × Except Rejection Unit :=
  match r with
  | .error rj => (d, .error rj)
  | .ok d2 => k d2

/-- The options object `{sn: vehicles.result[0].sn}` rebuilt at each call
site of the chain. -/
def mkSnOptions (vehiclesVar : JSVal) : Except Rejection JSVal := do
  let e ← vehiclesElem vehiclesVar 0
  let sn ← jgetE e "sn"
  pure (jobj [("sn", sn)])

/-- Sequence the `{sn: ...}` construction into the pipeline. -/
def bindSn (d : Snapshot) (vehiclesVar : JSVal)
    (k : JSVal → Snapshot × Except Rejection Unit) : Snapshot × Except Rejection Unit :=
  match mkSnOptions vehiclesVar with
  | .error rj => (d, .error rj)
  | .ok opts => k opts

/-- The whole promise chain of the main file, driven by one mocked
transport outcome per vendor call. Returns the final state of the
module-level `data` object together with the chain's terminal outcome
(`.ok ()` when the chain reached its last `then`, the rejection the
`.catch` handler receives otherwise). The module variable `vehicles` is
set to the resolved `getVehicles` value `{client, result: body}`; the
`client` backreference carries no data and is not modelled as a field.
The loop `for (index = 0; index < 1; ++index)` runs its body exactly once
with `vehicleIndex = 0`. -/
def runPipeline (authOptions : JSVal) (api : MockApi) (d0 : Snapshot) (date : String) :
    Snapshot × Except Rejection Unit :=
  match createSessionToken authOptions api.authT date with
  | .error e => (d0, .error (.api e))
  | .ok token =>
    bindApi d0 (getVehicles token api.vehiclesT date) fun vbody =>
    let vehiclesVar := jobj [("result", vbody)]
    if jgetTotal vehiclesVar "length" == JSVal.num (jn 0) then
      (d0, .error (.jsError "Aborted."))
    else
      bindFold d0 (foldVehicleFields d0 vehiclesVar 0) fun d1 =>
      bindSn d1 vehiclesVar fun snOpts1 =>
      bindApi d1 (getVehiclePos token snOpts1 api.posT date) fun posBody =>
      bindFold d1 (foldPosition d1 posBody) fun d2 =>
      bindSn d2 vehiclesVar fun snOpts2 =>
      bindApi d2 (getBatteryInfo token snOpts2 api.batteryInfoT date) fun biBody =>
      bindFold d2 (foldBatteryInfo d2 biBody) fun d3 =>
      bindSn d3 vehiclesVar fun snOpts3 =>
      bindApi d3 (getBatteryHealth token snOpts3 api.batteryHealthT date) fun bhBody =>
      bindFold d3 (foldBatteryHealth d3 bhBody) fun d4 =>
      bindSn d4 vehiclesVar fun snOpts4 =>
      bindApi d4 (getMotorInfo token snOpts4 api.motorInfoT date) fun _motorBody =>
      bindSn d4 vehiclesVar fun snOpts5 =>
      bindApi d4 (getOverallTally token snOpts5 api.tallyT date) fun tallyBody =>
      bindFold d4 (foldTally d4 tallyBody) fun d5 =>
      bindSn d5 vehiclesVar fun snOpts6 =>
      bindApi d5 (getFirmwareVersion token snOpts6 api.firmwareT date) fun fwBody =>
      bindFold d5 (foldFirmware d5 fwBody) fun d6 =>
      bindSn d6 vehiclesVar fun snOpts7 =>
      bindApi d6 (getTracks token
        (jobj [("sn", jgetTotal snOpts7 "sn"), ("index", .num (jn 0)), ("pageSize", .num (jn 1))])
        api.tracksT date) fun trBody =>
      bindFold d6 (foldTracks d6 trBody) fun d7 =>
      (d7, .ok ())

/-- The express route `app.get("/api", (req, res) => { if (key ==
req.body.key) res.send(data); })`: the current `data` is sent when the
precomputed SHA-256 hex digest of the configured key loosely equals the
request body's `key` field, and otherwise nothing at all is sent — the
handler has no else branch, so no snapshot, no error and no status goes
back to the caller. Both the digest and a well-formed request's `key`
field are strings, and on two strings JavaScript loose equality is string
equality. `none` models "no response sent". -/
def apiGetHandler (keyDigest reqKey : String) (d : Snapshot) : Option Snapshot :=
  if keyDigest == reqKey then some d else none

/-- A successful transport outcome: no error, a response with status code
200, and the given body. -/
def okT (body : JSVal) : Transport :=
  { error := .null, response := jobj [("statusCode", .num (jn 200))], body := body }

/-- Canned login body: vendor status 0 and a session token. -/
def authBody : JSVal := jobj [("status", .num (jn 0)), ("data", jobj [("token", .str "TOK")])]

/-- Canned authentication options (non-empty account, password, country code). -/
def cannedAuthOptions : JSVal :=
  jobj [("account", .str "a@b.c"), ("password", .str "pw"), ("countryCode", .str "351")]

/-- Canned vehicle entry of the vehicle-list body. -/
def cannedVehicle : JSVal :=
  jobj [("sn", .str "SN1"), ("type", .str "NGT"), ("name", .str "MyScooter")]

/-- Canned position body. -/
def cannedPos : JSVal := jobj [("lat", .num (jn 38)), ("lng", .num (jn (-9)))]

/-- Canned battery-info body with both compartments present and
distinguishable values: compartment A is (bmsId "BMSA", charge 80),
compartment B is (bmsId "BMSB", charge 70). -/
def cannedBatteryInfo : JSVal :=
  jobj [("batteries",
          jobj [("compartmentA", jobj [("bmsId", .str "BMSA"), ("batteryCharging", .num (jn 80))]),
                ("compartmentB", jobj [("bmsId", .str "BMSB"), ("batteryCharging", .num (jn 70))])]),
        ("estimatedMileage", .num (jn 42))]

/-- Canned battery-health body: grade "92" for compartment A, "88" for
compartment B. -/
def cannedBatteryHealth : JSVal :=
  jobj [("batteries",
          jobj [("compartmentA", jobj [("gradeBattery", .str "92")]),
                ("compartmentB", jobj [("gradeBattery", .str "88")])])]

/-- Canned track item: distance 1500 m, riding time 120 s, epoch start/end. -/
def cannedTrackItem : JSVal :=
  jobj [("trackId", .str "T1"), ("startTime", .num (jn 1647700000000)),
        ("endTime", .num (jn 1647700600000)), ("distance", .num (jn 1500)),
        ("avespeed", .num (jn 20)), ("ridingtime", .num (jn 120))]

/-- A fully mocked vendor API returning a canned success body for every
step, in order. The tracks body uses the `{items: [...]}` shape, the only
shape on which the source's one-item folding path runs to completion. -/
def cannedMock : MockApi :=
  { authT := okT authBody
    vehiclesT := okT (jarr [cannedVehicle])
    posT := okT cannedPos
    batteryInfoT := okT cannedBatteryInfo
    batteryHealthT := okT cannedBatteryHealth
    motorInfoT := okT (jobj [])
    tallyT := okT (jobj [("totalMileage", .num (jn 1234))])
    firmwareT := okT (jobj [("version", .str "1.2.3")])
    tracksT := okT (jobj [("items", jarr [cannedTrackItem])]) }

/-- The snapshot the pipeline actually computes from `cannedMock`: note
battery slot 1 carries compartment A's bmsId and charge and compartment
A's grade. -/
def cannedFinalSnapshot : Snapshot :=
  { vehicle_sn := .str "SN1"
    vehicle_type := .str "NGT"
    vehicle_name := .str "MyScooter"
    position_latitude := .num (jn 38)
    position_longitude := .num (jn (-9))
    battery_estimated_milage := .num (jn 42)
    battery0_bms := .str "BMSA"
    battery0_capacity := .num (jn 80)
    battery0_grade := .num (jn 92)
    battery1_bms := .str "BMSA"
    battery1_capacity := .num (jn 80)
    battery1_grade := .num (jn 92)
    current_speed := .func "Number"
    total_mileage := .num (jn 1234)
    firmware_version := .str "1.2.3"
    track_id := .str "T1"
    track_start_time := .str "Date(1647700000000)"
    track_end_time := .str "Date(1647700600000)"
    track_distance := .num (JNum.mk 3 2)
    track_average_speed := .num (jn 20)
    track_riding_time := .num (jn 2) }

/-- Modelled from the spec: the snapshot §4.4's folding rules prescribe for
`cannedMock` — identical direct mappings and unit conversions, except that
battery slot 1 holds compartment B's own bmsId, charge and numeric grade
("extract ... into ordered slot 0 (compartment A) and slot 1 (compartment
B)"). -/
def specExpectedSnapshot : Snapshot :=
  { vehicle_sn := .str "SN1"
    vehicle_type := .str "NGT"
    vehicle_name := .str "MyScooter"
    position_latitude := .num (jn 38)
    position_longitude := .num (jn (-9))
    battery_estimated_milage := .num (jn 42)
    battery0_bms := .str "BMSA"
    battery0_capacity := .num (jn 80)
    battery0_grade := .num (jn 92)
    battery1_bms := .str "BMSB"
    battery1_capacity := .num (jn 70)
    battery1_grade := .num (jn 88)
    current_speed := .func "Number"
    total_mileage := .num (jn 1234)
    firmware_version := .str "1.2.3"
    track_id := .str "T1"
    track_start_time := .str "Date(1647700000000)"
    track_end_time := .str "Date(1647700600000)"
    track_distance := .num (JNum.mk 3 2)
    track_average_speed := .num (jn 20)
    track_riding_time := .num (jn 2) }

/-- A transport-level failure (connection reset: callback error not null). -/
def bhFailT : Transport := { error := .str "ECONNRESET", response := .null, body := .null }

/-- The canned mock with the battery-health call failing at the transport
layer: every step before it succeeds, every step after it never runs. -/
def partialMock : MockApi := { cannedMock with batteryHealthT := bhFailT }

/-- The state of the `data` object after `partialMock`'s failed run: the
vehicle, position and battery-info folds have already mutated it; the
grade, tally, firmware and track fields still hold their placeholders. -/
def partialSnapshot : Snapshot :=
  { vehicle_sn := .str "SN1"
    vehicle_type := .str "NGT"
    vehicle_name := .str "MyScooter"
    position_latitude := .num (jn 38)
    position_longitude := .num (jn (-9))
    battery_estimated_milage := .num (jn 42)
    battery0_bms := .str "BMSA"
    battery0_capacity := .num (jn 80)
    battery0_grade := .func "Number"
    battery1_bms := .str "BMSA"
    battery1_capacity := .num (jn 80)
    battery1_grade := .func "Number"
    current_speed := .func "Number"
    total_mileage := .func "Number"
    firmware_version := .func "String"
    track_id := .func "String"
    track_start_time := .func "String"
    track_end_time := .func "String"
    track_distance := .func "Number"
    track_average_speed := .func "Number"
    track_riding_time := .func "Number" }

/-- The canned mock with a vehicle-list body holding zero vehicles. -/
def emptyVehiclesMock : MockApi := { cannedMock with vehiclesT := okT (jarr []) }

/-- Battery-info body with both compartments, built from arbitrary values. -/
def mkBatteryInfoAB (bmsA capA bmsB capB em : JSVal) : JSVal :=
  jobj [("batteries",
          jobj [("compartmentA", jobj [("bmsId", bmsA), ("batteryCharging", capA)]),
                ("compartmentB", jobj [("bmsId", bmsB), ("batteryCharging", capB)])]),
        ("estimatedMileage", em)]

/-- Battery-info body with only compartment A present. -/
def mkBatteryInfoA (bmsA capA em : JSVal) : JSVal :=
  jobj [("batteries",
          jobj [("compartmentA", jobj [("bmsId", bmsA), ("batteryCharging", capA)])]),
        ("estimatedMileage", em)]

/-- Battery-health body with both compartments, built from arbitrary grades. -/
def mkBatteryHealthAB (gA gB : JSVal) : JSVal :=
  jobj [("batteries",
          jobj [("compartmentA", jobj [("gradeBattery", gA)]),
                ("compartmentB", jobj [("gradeBattery", gB)])])]

/-- Battery-health body with only compartment A present. -/
def mkBatteryHealthA (gA : JSVal) : JSVal :=
  jobj [("batteries", jobj [("compartmentA", jobj [("gradeBattery", gA)])])]

theorem jsTypeof_num (n : JNum) : jsTypeof (JSVal.num n) = "number" := rfl

theorem mkcb_ok_iff (t : Transport) (date : String) :
    makeRequestCallback t date = .ok t.body ↔
      (t.error = JSVal.null ∧ jsTypeof t.response = "object" ∧
       jgetTotal t.response "statusCode" = JSVal.num (jn 200) ∧ jsTypeof t.body = "object" ∧
       (jsTypeof (jgetTotal t.body "status") = "number" →
         jgetTotal t.body "status" = JSVal.num (jn 0))) := by
  unfold makeRequestCallback
  split_ifs with h1 h2 h3 h4 h5 h6
  all_goals try simp_all [bne_iff_ne, Bool.and_eq_true, beq_iff_eq, not_and, not_not]
  · intro hsc _
    rw [hsc] at h3
    exact absurd rfl h3
  · exact h6

theorem mkcb_ok_val (t : Transport) (date : String) (b : JSVal)
    (h : makeRequestCallback t date = .ok b) : b = t.body := by
  unfold makeRequestCallback at h
  split_ifs at h
  all_goals simp_all

theorem mkcb_transport (t : Transport) (date : String) (h : t.error ≠ JSVal.null) :
    makeRequestCallback t date = .error (clientError t.error "_makeRequest()" date) := by
  unfold makeRequestCallback
  simp [bne_iff_ne, h]

theorem mkcb_unknown (t : Transport) (date : String)
    (h1 : t.error = JSVal.null) (h2 : jsTypeof t.response ≠ "object") :
    makeRequestCallback t date =
      .error (clientError (.str "Unknown error.") "_makeRequest()" date) := by
  unfold makeRequestCallback
  simp [bne_iff_ne, h1, h2]

theorem mkcb_status_missing (t : Transport) (date : String)
    (h1 : t.error = JSVal.null) (h2 : jsTypeof t.response = "object")
    (h3 : jsTypeof (jgetTotal t.response "statusCode") ≠ "number") :
    makeRequestCallback t date =
      .error (clientError (.str "Status code is missing.") "_makeRequest()" date) := by
  unfold makeRequestCallback
  simp [bne_iff_ne, h1, h2, h3]

theorem mkcb_bad_request (t : Transport) (date : String)
    (h1 : t.error = JSVal.null) (h2 : jsTypeof t.response = "object")
    (h3 : jsTypeof (jgetTotal t.response "statusCode") = "number")
    (h4 : jgetTotal t.response "statusCode" ≠ JSVal.num (jn 200)) :
    makeRequestCallback t date =
      .error (clientError (.str "Bad request.") "_makeRequest()" date) := by
  unfold makeRequestCallback
  simp [bne_iff_ne, h1, h2, h3, h4]

theorem mkcb_no_body (t : Transport) (date : String)
    (h1 : t.error = JSVal.null) (h2 : jsTypeof t.response = "object")
    (h3 : jgetTotal t.response "statusCode" = JSVal.num (jn 200))
    (h4 : jsTypeof t.body ≠ "object") :
    makeRequestCallback t date =
      .error (clientError (.str "No body received.") "_makeRequest()" date) := by
  unfold makeRequestCallback
  simp [bne_iff_ne, h1, h2, h3, h4, jsTypeof_num]

theorem mkcb_vendor (t : Transport) (date : String)
    (h1 : t.error = JSVal.null) (h2 : jsTypeof t.response = "object")
    (h3 : jgetTotal t.response "statusCode" = JSVal.num (jn 200))
    (h4 : jsTypeof t.body = "object")
    (h5 : jsTypeof (jgetTotal t.body "status") = "number")
    (h6 : jgetTotal t.body "status" ≠ JSVal.num (jn 0)) :
    makeRequestCallback t date =
      .error { date := date, funcName := "_makeRequest()", error := t.body } := by
  unfold makeRequestCallback
  simp [bne_iff_ne, beq_iff_eq, h1, h2, h3, h4, h5, h6, clientError, jsTypeof_num]

/-- Claim C1: `_makeRequest`'s callback returns a success outcome wrapping
the raw body if and only if the transport reported no error, a response
object with numeric status code 200 was received, and the body is of
object type carrying no non-zero numeric `status` field; the failure
layers apply in the strict order transport → missing response / status
code → non-200 status → body / vendor checks, and a vendor-reported error
(non-zero `body.status`) is rejected with the embedded body itself as the
error cause. -/
theorem claim_C1_request_layers (t : Transport) (date : String) :
    (makeRequestCallback t date = .ok t.body ↔
      (t.error = JSVal.null ∧ jsTypeof t.response = "object" ∧
       jgetTotal t.response "statusCode" = JSVal.num (jn 200) ∧ jsTypeof t.body = "object" ∧
       (jsTypeof (jgetTotal t.body "status") = "number" →
         jgetTotal t.body "status" = JSVal.num (jn 0))))
    ∧ (∀ b, makeRequestCallback t date = .ok b → b = t.body)
    ∧ (t.error ≠ JSVal.null →
        makeRequestCallback t date = .error (clientError t.error "_makeRequest()" date))
    ∧ (t.error = JSVal.null → jsTypeof t.response ≠ "object" →
        makeRequestCallback t date =
          .error (clientError (.str "Unknown error.") "_makeRequest()" date))
    ∧ (t.error = JSVal.null → jsTypeof t.response = "object" →
        jsTypeof (jgetTotal t.response "statusCode") ≠ "number" →
        makeRequestCallback t date =
          .error (clientError (.str "Status code is missing.") "_makeRequest()" date))
    ∧ (t.error = JSVal.null → jsTypeof t.response = "object" →
        jsTypeof (jgetTotal t.response "statusCode") = "number" →
        jgetTotal t.response "statusCode" ≠ JSVal.num (jn 200) →
        makeRequestCallback t date =
          .error (clientError (.str "Bad request.") "_makeRequest()" date))
    ∧ (t.error = JSVal.null → jsTypeof t.response = "object" →
        jgetTotal t.response "statusCode" = JSVal.num (jn 200) → jsTypeof t.body ≠ "object" →
        makeRequestCallback t date =
          .error (clientError (.str "No body received.") "_makeRequest()" date))
    ∧ (t.error = JSVal.null → jsTypeof t.response = "object" →
        jgetTotal t.response "statusCode" = JSVal.num (jn 200) → jsTypeof t.body = "object" →
        jsTypeof (jgetTotal t.body "status") = "number" →
        jgetTotal t.body "status" ≠ JSVal.num (jn 0) →
        makeRequestCallback t date =
          .error { date := date, funcName := "_makeRequest()", error := t.body }) :=
  ⟨mkcb_ok_iff t date, mkcb_ok_val t date, mkcb_transport t date, mkcb_unknown t date,
   mkcb_status_missing t date, mkcb_bad_request t date, mkcb_no_body t date,
   mkcb_vendor t date⟩

/-- Witness for claim C1 at concrete transports: a clean 200/status-0
exchange succeeds with the raw body, and a transport error is reported as
the transport-layer failure. -/
theorem claim_C1_request_layers_witness :
    makeRequestCallback (Transport.mk JSVal.null (jobj [("statusCode", JSVal.num (jn 200))])
        (jobj [("status", JSVal.num (jn 0))])) "12:00:00.000"
      = .ok (jobj [("status", JSVal.num (jn 0))])
    ∧ makeRequestCallback (Transport.mk (JSVal.str "ECONNRESET") JSVal.null JSVal.null) "t"
      = .error (clientError (JSVal.str "ECONNRESET") "_makeRequest()" "t") :=
  ⟨(claim_C1_request_layers
      (Transport.mk JSVal.null (jobj [("statusCode", JSVal.num (jn 200))])
        (jobj [("status", JSVal.num (jn 0))])) "12:00:00.000").1.mpr
      ⟨rfl, rfl, rfl, rfl, fun _ => rfl⟩,
   (claim_C1_request_layers
      (Transport.mk (JSVal.str "ECONNRESET") JSVal.null JSVal.null) "t").2.2.1 (by decide)⟩


/-- Claim C2 counterexample: with every call up to battery-info succeeding
and the battery-health call failing at the transport layer, the pipeline
terminates in failure, yet the `data` object is no longer the initial
snapshot — the completed folds already mutated it — and the `/api` route
serves that partially mutated snapshot on a matching key. -/
theorem claim_C2_counterexample :
    runPipeline cannedAuthOptions partialMock initialData "d" =
      (partialSnapshot,
       .error (.api { date := "d", funcName := "_makeRequest()",
                      error := jobj [("message", .str "ECONNRESET")] }))
    ∧ partialSnapshot ≠ initialData
    ∧ apiGetHandler "a1b2" "a1b2" partialSnapshot = some partialSnapshot :=
  ⟨rfl, by decide, rfl⟩

/-- Claim C2 amended: the snapshot is populated field by field, not
replaced atomically. A run failing at the battery-health step leaves the
fields of the completed steps (vehicle, position, battery info) at their
new values and every later field at its placeholder, and the `/api` route
serves the current snapshot whenever the key matches, regardless of the
pipeline's outcome. -/
theorem claim_C2_partial_mutation :
    runPipeline cannedAuthOptions partialMock initialData "d" =
      (partialSnapshot,
       .error (.api { date := "d", funcName := "_makeRequest()",
                      error := jobj [("message", .str "ECONNRESET")] }))
    ∧ partialSnapshot.vehicle_sn = .str "SN1"
    ∧ partialSnapshot.position_latitude = .num (jn 38)
    ∧ partialSnapshot.battery0_bms = .str "BMSA"
    ∧ partialSnapshot.battery0_grade = initialData.battery0_grade
    ∧ partialSnapshot.total_mileage = initialData.total_mileage
    ∧ partialSnapshot.firmware_version = initialData.firmware_version
    ∧ partialSnapshot.track_id = initialData.track_id
    ∧ (∀ digest : String, apiGetHandler digest digest partialSnapshot = some partialSnapshot) :=
  ⟨rfl, rfl, rfl, rfl, rfl, rfl, rfl, rfl, fun digest => by simp [apiGetHandler]⟩

/-- Claim C3 counterexample: on the fully canned mock the pipeline does
terminate in its final `then` (Done), but the resulting snapshot does not
match the spec's expected direct mapping: battery slot 1 holds compartment
A's bmsId even though the canned compartment B carries the distinct
"BMSB". -/
theorem claim_C3_counterexample :
    runPipeline cannedAuthOptions cannedMock initialData "d" = (cannedFinalSnapshot, .ok ())
    ∧ jgetTotal (jgetTotal (jgetTotal cannedBatteryInfo "batteries") "compartmentB") "bmsId"
        = .str "BMSB"
    ∧ cannedFinalSnapshot.battery1_bms = .str "BMSA"
    ∧ cannedFinalSnapshot ≠ specExpectedSnapshot :=
  ⟨rfl, rfl, rfl, by decide⟩

/-- Claim C3 amended: on a fully mocked vendor API returning canned
success bodies for every step in order, the pipeline runs all steps in
their fixed order and terminates in Done with a snapshot matching the
expected direct mapping and unit conversions from the canned input,
except that battery slot 1 receives compartment A's bmsId, charge and
grade (the source reads `compartmentA` inside both compartment branches);
the spec-prescribed snapshot differs from the computed one exactly in the
three slot-1 fields. -/
theorem claim_C3_end_to_end :
    runPipeline cannedAuthOptions cannedMock initialData "d" = (cannedFinalSnapshot, .ok ())
    ∧ specExpectedSnapshot =
        { cannedFinalSnapshot with
            battery1_bms := .str "BMSB",
            battery1_capacity := .num (jn 70),
            battery1_grade := .num (jn 88) } :=
  ⟨rfl, by decide⟩

/-- Claim C4 counterexample: folding the canned battery-info and
battery-health bodies (both compartments present, with distinct values)
puts compartment A's bmsId, charge and grade into slot 1, not compartment
B's own "BMSB" / 70 / 88. -/
theorem claim_C4_counterexample :
    foldBatteryInfo initialData cannedBatteryInfo =
      .ok { initialData with
              battery0_bms := .str "BMSA", battery0_capacity := .num (jn 80),
              battery1_bms := .str "BMSA", battery1_capacity := .num (jn 80),
              battery_estimated_milage := .num (jn 42) }
    ∧ jgetTotal (jgetTotal (jgetTotal cannedBatteryInfo "batteries") "compartmentB") "bmsId"
        = .str "BMSB"
    ∧ foldBatteryHealth partialSnapshot cannedBatteryHealth =
      .ok { partialSnapshot with
              battery0_grade := .num (jn 92), battery1_grade := .num (jn 92) }
    ∧ jgetTotal (jgetTotal (jgetTotal cannedBatteryHealth "batteries") "compartmentB")
        "gradeBattery" = .str "88"
    ∧ jsNumber (.str "88") = .num (jn 88)
    ∧ jn 88 ≠ jn 92 :=
  ⟨rfl, rfl, rfl, rfl, by decide, by decide⟩

/-- Claim C4 amended: with both compartments present as objects, slot 0
holds compartment A's bmsId, charge and numeric grade, and slot 1 is
populated — but with compartment A's bmsId, charge and grade again (the
source reads `compartmentA` in the compartment-B branches of both folds);
with only compartment A present, exactly slot 0 is populated and the
slot-1 fields are left untouched. -/
theorem claim_C4_battery_slots (d : Snapshot) (bmsA capA bmsB capB em gA gB : JSVal) :
    foldBatteryInfo d (mkBatteryInfoAB bmsA capA bmsB capB em) =
      .ok { d with
              battery0_bms := bmsA, battery0_capacity := capA,
              battery1_bms := bmsA, battery1_capacity := capA,
              battery_estimated_milage := em }
    ∧ foldBatteryInfo d (mkBatteryInfoA bmsA capA em) =
      .ok { d with
              battery0_bms := bmsA, battery0_capacity := capA,
              battery_estimated_milage := em }
    ∧ foldBatteryHealth d (mkBatteryHealthAB gA gB) =
      .ok { d with battery0_grade := jsNumber gA, battery1_grade := jsNumber gA }
    ∧ foldBatteryHealth d (mkBatteryHealthA gA) =
      .ok { d with battery0_grade := jsNumber gA } :=
  ⟨rfl, rfl, rfl, rfl⟩

/-- Claim C5: a vehicle-list call resolving with zero vehicles does not
produce the "No vehicles found" failure the spec describes. The emptiness
check compares 0 against `vehicles.length`, but `vehicles` holds the
resolved wrapper `{client, result}` whose `length` is `undefined`, so the
strict comparison is false and the run proceeds until reading `.sn` of
`vehicles.result[0]` (`undefined`) throws a `TypeError`; the snapshot
keeps its initial value. Even the dead branch would reject with the
message "Aborted.", not "No vehicles found". -/
theorem claim_C5_dead_empty_check :
    runPipeline cannedAuthOptions emptyVehiclesMock initialData "d" =
      (initialData, .error (.typeError "sn"))
    ∧ (jgetTotal (jobj [("result", jarr [])]) "length" == JSVal.num (jn 0)) = false
    ∧ Rejection.typeError "sn" ≠ .jsError "Aborted." :=
  ⟨rfl, rfl, by decide⟩

/-- Claim C6 counterexample: `_makeRequest` performs no session check.
With the session token empty and valid options, the call still goes to
the network: a successful exchange yields a success outcome and a
transport failure yields the transport error — not a "no valid session"
failure. -/
theorem claim_C6_counterexample :
    makeRequest "" (jobj [("path", .str "/motoinfo/list")])
        (okT (jobj [("x", .num (jn 1))])) "d"
      = .ok (jobj [("x", .num (jn 1))])
    ∧ makeRequest "" (jobj [("path", .str "/motoinfo/list")]) bhFailT "d"
      = .error (clientError (.str "ECONNRESET") "_makeRequest()" "d") :=
  ⟨rfl, rfl⟩

/-- Claim C6 amended: `_makeRequest` itself performs no session check —
its outcome is independent of the token, which only rides along in the
request headers. The fail-fast guard lives in the endpoint accessors
instead: with an empty token each accessor returns a "No valid token
available." error for every transport (so before any network I/O),
stamped with the accessor's `funcName` (which for `getBatteryHealth` is
the string "getBatteryInfo()"). -/
theorem claim_C6_accessor_token_guard :
    (∀ (tok1 tok2 : String) (options : JSVal) (t : Transport) (date : String),
      makeRequest tok1 options t date = makeRequest tok2 options t date)
    ∧ (∀ (options : JSVal) (t : Transport) (date : String),
        getVehicles "" t date =
          .error (clientError (.str "No valid token available.") "getVehicles()" date)
        ∧ getBatteryInfo "" options t date =
          .error (clientError (.str "No valid token available.") "getBatteryInfo()" date)
        ∧ getBatteryHealth "" options t date =
          .error (clientError (.str "No valid token available.") "getBatteryInfo()" date)
        ∧ getMotorInfo "" options t date =
          .error (clientError (.str "No valid token available.") "getMotorInfo()" date)
        ∧ getOverallTally "" options t date =
          .error (clientError (.str "No valid token available.") "getOverallTally()" date)
        ∧ getTracks "" options t date =
          .error (clientError (.str "No valid token available.") "getTracks()" date)
        ∧ getTrackDetail "" options t date =
          .error (clientError (.str "No valid token available.") "getTrackDetail()" date)
        ∧ getVehiclePos "" options t date =
          .error (clientError (.str "No valid token available.") "getVehiclePos()" date)
        ∧ getFirmwareVersion "" options t date =
          .error (clientError (.str "No valid token available.") "getFirmwareVersion()" date)) :=
  ⟨fun _ _ _ _ _ => rfl,
   fun _ _ _ => ⟨rfl, rfl, rfl, rfl, rfl, rfl, rfl, rfl, rfl⟩⟩

/-- Claim C8 counterexample: an empty account string passes
`createSessionToken`'s validation — the guards check string type only,
not emptiness — and the login request is issued: the outcome follows the
transport exchange instead of being a validation error. -/
theorem claim_C8_counterexample :
    createSessionToken
      (jobj [("account", .str ""), ("password", .str "pw"), ("countryCode", .str "351")])
      (okT authBody) "d" = .ok "TOK"
    ∧ createSessionToken
      (jobj [("account", .str ""), ("password", .str "pw"), ("countryCode", .str "351")])
      bhFailT "d" = .error (clientError (.str "ECONNRESET") "createSessionToken()" "d") :=
  ⟨rfl, rfl⟩

theorem cst_options_missing (options : JSVal) (t : Transport) (date : String)
    (h : jsTypeof options ≠ "object") :
    createSessionToken options t date =
      .error (clientError (.str "Options is missing.") "createSessionToken()" date) := by
  unfold createSessionToken
  simp [bne_iff_ne, h]

theorem cst_account_missing (options : JSVal) (t : Transport) (date : String)
    (h1 : jsTypeof options = "object")
    (h2 : jsTypeof (jgetTotal options "account") ≠ "string") :
    createSessionToken options t date =
      .error (clientError (.str "Account is missing.") "createSessionToken()" date) := by
  unfold createSessionToken
  simp [bne_iff_ne, h1, h2]

theorem cst_password_missing (options : JSVal) (t : Transport) (date : String)
    (h1 : jsTypeof options = "object")
    (h2 : jsTypeof (jgetTotal options "account") = "string")
    (h3 : jsTypeof (jgetTotal options "password") ≠ "string") :
    createSessionToken options t date =
      .error (clientError (.str "Password is missing.") "createSessionToken()" date) := by
  unfold createSessionToken
  simp [bne_iff_ne, h1, h2, h3]

theorem cst_country_missing (options : JSVal) (t : Transport) (date : String)
    (h1 : jsTypeof options = "object")
    (h2 : jsTypeof (jgetTotal options "account") = "string")
    (h3 : jsTypeof (jgetTotal options "password") = "string")
    (h4 : jsTypeof (jgetTotal options "countryCode") ≠ "string") :
    createSessionToken options t date =
      .error (clientError (.str "Country code is missing.") "createSessionToken()" date) := by
  unfold createSessionToken
  simp [bne_iff_ne, h1, h2, h3, h4]

/-- Claim C8 amended: `createSessionToken` validates that the options
object and its `account`, `password` and `countryCode` fields are present
with string type; a missing or non-string member of any of the four
yields the corresponding descriptive validation error for every transport
— before any network I/O. Emptiness of the strings is not checked (see
the counterexample). -/
theorem claim_C8_validation (options : JSVal) (t : Transport) (date : String) :
    (jsTypeof options ≠ "object" →
      createSessionToken options t date =
        .error (clientError (.str "Options is missing.") "createSessionToken()" date))
    ∧ (jsTypeof options = "object" → jsTypeof (jgetTotal options "account") ≠ "string" →
      createSessionToken options t date =
        .error (clientError (.str "Account is missing.") "createSessionToken()" date))
    ∧ (jsTypeof options = "object" → jsTypeof (jgetTotal options "account") = "string" →
        jsTypeof (jgetTotal options "password") ≠ "string" →
      createSessionToken options t date =
        .error (clientError (.str "Password is missing.") "createSessionToken()" date))
    ∧ (jsTypeof options = "object" → jsTypeof (jgetTotal options "account") = "string" →
        jsTypeof (jgetTotal options "password") = "string" →
        jsTypeof (jgetTotal options "countryCode") ≠ "string" →
      createSessionToken options t date =
        .error (clientError (.str "Country code is missing.") "createSessionToken()" date)) :=
  ⟨cst_options_missing options t date, cst_account_missing options t date,
   cst_password_missing options t date, cst_country_missing options t date⟩

/-- Witness for the amended claim C8: options missing the account field
are rejected with "Account is missing." on a concrete transport. -/
theorem claim_C8_validation_witness :
    createSessionToken (jobj [("password", .str "pw"), ("countryCode", .str "351")])
      (okT authBody) "d" =
      .error (clientError (.str "Account is missing.") "createSessionToken()" "d") :=
  (claim_C8_validation (jobj [("password", .str "pw"), ("countryCode", .str "351")])
    (okT authBody) "d").2.1 rfl (by decide)

/-- Claim C9: `getBatteryHealth`'s local `funcName` is the string
"getBatteryInfo()" (source line 487), so its validation and
missing-session errors are stamped with another accessor's name — the
origin stamp does not match the function in which the failure occurred. -/
theorem claim_C9_funcName_bug :
    getBatteryHealth "TOK" JSVal.undefined (okT (jobj [])) "d" =
      .error { date := "d", funcName := "getBatteryInfo()",
               error := jobj [("message", .str "Options is missing.")] }
    ∧ ("getBatteryInfo()" : String) ≠ "getBatteryHealth()" :=
  ⟨rfl, by decide⟩

/-- Claim C10: the `/api` route handler sends nothing at all — no
snapshot, no error, no status — whenever the request body's key field
differs from the configured key's SHA-256 hex digest; the handler's only
statement is guarded by the key comparison and it has no else branch. -/
theorem claim_C10_api_key_gate (keyDigest reqKey : String) (d : Snapshot)
    (h : reqKey ≠ keyDigest) : apiGetHandler keyDigest reqKey d = none := by
  unfold apiGetHandler
  simp [beq_iff_eq]
  exact fun hk => absurd hk.symm h

/-- Witness for claim C10: a concrete mismatched key gets no response. -/
theorem claim_C10_api_key_gate_witness :
    ("wrong" : String) ≠ "a1b2" ∧ apiGetHandler "a1b2" "wrong" initialData = none :=
  ⟨by decide, claim_C10_api_key_gate "a1b2" "wrong" initialData (by decide)⟩

/-- Claim C7: the two halves of the claim cannot both hold, under either
tracks-body shape. Under the array-of-tracks shape the connector's own
`Tracks` typedef declares, a zero-item page does leave the track fields
empty with no error, but a one-item page with distance 1500 m and riding
time 120 s throws (`result.result.items[0]` indexes the `undefined`
`items` property of the array) instead of reporting 1.5 km and 2 minutes.
Under the alternative `{items: [...]}` shape the one-item page folds to
exactly distanceKm 3/2, ridingTimeMinutes 2 and the rendered date-time
strings, but the zero-item page throws reading `startTime` of the
`undefined` item 0 instead of leaving the track fields empty. -/
theorem claim_C7_tracks_fold_bug :
    foldTracks initialData (jarr []) = .ok initialData
    ∧ foldTracks initialData (jarr [cannedTrackItem]) = .error (.typeError "0")
    ∧ foldTracks initialData (jobj [("items", jarr [cannedTrackItem])]) =
      .ok { initialData with
              track_id := .str "T1",
              track_start_time := .str "Date(1647700000000)",
              track_end_time := .str "Date(1647700600000)",
              track_distance := .num (JNum.mk 3 2),
              track_average_speed := .num (jn 20),
              track_riding_time := .num (jn 2) }
    ∧ foldTracks initialData (jobj [("items", jarr [])]) = .error (.typeError "startTime") :=
  ⟨rfl, rfl, rfl, rfl⟩
